import Mathlib

/-!
# A verification development for the `users` CRUD service (`src/main.go`)

The three HTTP handlers `getUsers`, `createUser` and `updateUser` are embedded as pure
functions.  Each handler receives the request and the current world (the state behind the
`*sql.DB` handle together with the log of calls made through the handle) and returns the
finished `ResponseWriter` and the new world.

The database behind the handle is not part of the repository.  The handlers are therefore
written against an arbitrary `SqlDB σ` (every outcome that `database/sql` can hand back,
errors included), and the claims that speak about the stored table are settled on
`tableDB`, a storage engine for the single `users` table that interprets the statements the
handlers really send.
-/

set_option autoImplicit false

namespace Crud

/-! ## Data model -/

/-- The `User` struct of `main.go` (lines 14-19).  `ID` is a Go `int`. -/
structure User where
  ID : Int
  Name : String
  Email : String
  Age : String
deriving DecidableEq, Repr

/-- JSON values, as far as `encoding/json` produces them for this program. -/
inductive Json where
  | null
  | num (n : Int)
  | str (s : String)
  | arr (elems : List Json)
  | obj (members : List (String × Json))

/-- The encoding of a `User` that the struct tags prescribe: the four members
`id`, `name`, `email`, `age`, in field order, none of them with `omitempty`. -/
def User.toJson (u : User) : Json :=
  Json.obj [("id", Json.num u.ID), ("name", Json.str u.Name),
            ("email", Json.str u.Email), ("age", Json.str u.Age)]

/-- A Go slice of users: `none` is the nil slice, `some l` a non-nil slice. -/
abbrev UserSlice := Option (List User)

/-- The built-in `append(users, u)`: the result is never nil. -/
def UserSlice.append (s : UserSlice) (u : User) : UserSlice :=
  match s with
  | none => some [u]
  | some l => some (l ++ [u])

/-- The encoding of a slice of users by `encoding/json`: a nil slice is `null`,
any other slice an array. -/
def UserSlice.toJson (s : UserSlice) : Json :=
  match s with
  | none => Json.null
  | some l => Json.arr (l.map User.toJson)

/-! ## The HTTP side -/

/-- What a handler writes into the response body: a line of plain text
(`http.Error`), or one JSON document followed by a newline (`Encoder.Encode`). -/
inductive Chunk where
  | text (s : String)
  | json (j : Json)

/-- The state of an `http.ResponseWriter`. -/
structure ResponseWriter where
  contentType : Option String
  code : Option Nat
  body : List Chunk

/-- The writer a handler starts with: no header set, nothing written. -/
def ResponseWriter.fresh : ResponseWriter :=
  { contentType := none, code := none, body := [] }

/-- The call `w.Header().Set("Content-Type", v)`; without effect once the header is sent. -/
def ResponseWriter.SetContentType (w : ResponseWriter) (v : String) : ResponseWriter :=
  match w.code with
  | none => { w with contentType := some v }
  | some _ => w

/-- The call `w.WriteHeader(c)`; only the first call counts. -/
def ResponseWriter.WriteHeader (w : ResponseWriter) (c : Nat) : ResponseWriter :=
  match w.code with
  | none => { w with code := some c }
  | some _ => w

/-- The call `w.Write(...)`: the first write sends status 200 when no status was sent. -/
def ResponseWriter.Write (w : ResponseWriter) (c : Chunk) : ResponseWriter :=
  { (w.WriteHeader 200) with body := (w.WriteHeader 200).body ++ [c] }

/-- The status the client receives. -/
def ResponseWriter.status (w : ResponseWriter) : Nat :=
  w.code.getD 200

/-- The function `http.Error(w, msg, code)`: plain-text content type, the status, and the
message followed by a newline. -/
def httpError (w : ResponseWriter) (msg : String) (code : Nat) : ResponseWriter :=
  ((w.SetContentType "text/plain; charset=utf-8").WriteHeader code).Write (Chunk.text (msg ++ "\n"))

/-- The call `json.NewEncoder(w).Encode(v)` for a value whose encoding is `j`. -/
def encode (w : ResponseWriter) (j : Json) : ResponseWriter :=
  w.Write (Chunk.json j)

abbrev StatusOK : Nat := 200
abbrev StatusCreated : Nat := 201
abbrev StatusBadRequest : Nat := 400
abbrev StatusNotFound : Nat := 404
abbrev StatusInternalServerError : Nat := 500

/-- An incoming request, as far as the handlers look at it: the error `r.ParseForm()`
returns (if any) and the parsed form, a map from keys to lists of values. -/
structure Request where
  parseErr : Option String
  Form : List (String × List String)

/-- The method `r.FormValue(key)`: the first value for the key, `""` when there is none. -/
def Request.FormValue (r : Request) (key : String) : String :=
  match r.Form.lookup key with
  | some (v :: _) => v
  | _ => ""

/-! ## `strconv.Atoi` -/

/-- The value of a decimal digit. -/
def digitVal (c : Char) : Option Nat :=
  if '0' ≤ c ∧ c ≤ '9' then some (c.toNat - '0'.toNat) else none

/-- Reads a run of decimal digits, most significant first, onto an accumulator. -/
def readDigits (acc : Nat) : List Char → Option Nat
  | [] => some acc
  | c :: cs =>
    match digitVal c with
    | none => none
    | some d => readDigits (10 * acc + d) cs

/-- The function `strconv.Atoi` for a 64-bit `int`: an optional sign, at least one decimal
digit, nothing else, and a value in the range of `int`.  `none` stands for a non-nil error. -/
def Atoi (s : String) : Option Int :=
  let cs := s.toList
  let neg := cs.head? = some '-'
  let ds := if cs.head? = some '-' ∨ cs.head? = some '+' then cs.tail else cs
  match ds with
  | [] => none
  | _ =>
    match readDigits 0 ds with
    | none => none
    | some n =>
      let v : Int := if neg then -(n : Int) else (n : Int)
      if -(2 : Int) ^ 63 ≤ v ∧ v < (2 : Int) ^ 63 then some v else none

/-! ## The `database/sql` side -/

/-- An argument passed to a statement (`interface{}`): the handlers pass strings and one `int`. -/
inductive Value where
  | int (n : Int)
  | str (s : String)
deriving DecidableEq, Repr

/-- An `sql.Result`: each accessor returns a value together with an error. -/
structure Result where
  LastInsertId : Int × Option String
  RowsAffected : Int × Option String

/-- The `*sql.Rows` of the listing query, as the loop of `getUsers` sees it: for each row
that `Next` delivers the outcome of `Scan(&u.ID, &u.Name, &u.Email)`, and the error that
`rows.Err()` would report once `Next` has returned false. -/
structure Rows where
  scans : List (Except String (Int × String × String))
  err : Option String

/-- The three entry points of `*sql.DB` that the handlers use. -/
inductive Method where
  | Exec
  | Query
  | QueryRow
deriving DecidableEq, Repr

/-- One call made through the database handle. -/
structure Call where
  method : Method
  query : String
  args : List Value
deriving DecidableEq, Repr

/-- A database behind the handle, with state `σ`.  `QueryRow` gives the outcome of
`QueryRow(...).Scan(&user.ID, &user.Name, &user.Email, &user.Age)`. -/
structure SqlDB (σ : Type) where
  Exec : String → List Value → σ → Except String Result × σ
  Query : String → List Value → σ → Except String Rows × σ
  QueryRow : String → List Value → σ → Except String (Int × String × String × String) × σ

/-- The state a handler runs in: the state of the database and the calls made so far. -/
structure World (σ : Type) where
  store : σ
  log : List Call

variable {σ : Type}

/-- The call `db.Exec(query, args...)`. -/
def World.Exec (db : SqlDB σ) (s : World σ) (query : String) (args : List Value) :
    Except String Result × World σ :=
  ((db.Exec query args s.store).1,
   { store := (db.Exec query args s.store).2, log := s.log ++ [⟨Method.Exec, query, args⟩] })

/-- The call `db.Query(query, args...)`. -/
def World.Query (db : SqlDB σ) (s : World σ) (query : String) (args : List Value) :
    Except String Rows × World σ :=
  ((db.Query query args s.store).1,
   { store := (db.Query query args s.store).2, log := s.log ++ [⟨Method.Query, query, args⟩] })

/-- The call `db.QueryRow(query, args...).Scan(...)` with four destinations. -/
def World.QueryRow (db : SqlDB σ) (s : World σ) (query : String) (args : List Value) :
    Except String (Int × String × String × String) × World σ :=
  ((db.QueryRow query args s.store).1,
   { store := (db.QueryRow query args s.store).2,
     log := s.log ++ [⟨Method.QueryRow, query, args⟩] })

/-! ## The handlers -/

/-- The loop of `getUsers` (lines 50-57): each delivered row is scanned into a new `User`
(whose `Age` stays `""`) and appended; the first scan error ends the handler.  The
error of `rows.Err()` is not looked at. -/
def scanUsers (users : UserSlice) : List (Except String (Int × String × String)) →
    Except String UserSlice
  | [] => Except.ok users
  | Except.error err :: _ => Except.error err
  | Except.ok (id, name, email) :: rest =>
    scanUsers (users.append { ID := id, Name := name, Email := email, Age := "" }) rest

/-- The handler `getUsers` (lines 40-62). -/
def getUsers (db : SqlDB σ) (_r : Request) (s : World σ) : ResponseWriter × World σ :=
  match s.Query db "SELECT id, name, email FROM users" [] with
  | (Except.error err, s1) => (httpError ResponseWriter.fresh err StatusInternalServerError, s1)
  | (Except.ok rows, s1) =>
    match scanUsers (some []) rows.scans with
    | Except.error err => (httpError ResponseWriter.fresh err StatusInternalServerError, s1)
    | Except.ok users =>
      (encode (ResponseWriter.fresh.SetContentType "application/json") users.toJson, s1)

/-- The handler `createUser` (lines 64-107).  The error of `result.LastInsertId()` is
discarded (line 92) and the value is used; `int(id)` does not change an `int64` where `int`
has 64 bits. -/
def createUser (db : SqlDB σ) (r : Request) (s : World σ) : ResponseWriter × World σ :=
  match r.parseErr with
  | some _ => (httpError ResponseWriter.fresh "Failed to parse form data" StatusBadRequest, s)
  | none =>
    let name := r.FormValue "name"
    let email := r.FormValue "email"
    let age := r.FormValue "age"
    if name = "" ∨ email = "" ∨ age = "" then
      (httpError ResponseWriter.fresh "All fields are required" StatusBadRequest, s)
    else
      match s.Exec db "INSERT INTO users (name, email, age) VALUES (?, ?, ?)"
          [Value.str name, Value.str email, Value.str age] with
      | (Except.error err, s1) =>
        (httpError ResponseWriter.fresh ("Failed to create user: " ++ err)
          StatusInternalServerError, s1)
      | (Except.ok result, s1) =>
        let id := result.LastInsertId.1
        let user : User := { ID := id, Name := name, Email := email, Age := age }
        (encode ((ResponseWriter.fresh.SetContentType "application/json").WriteHeader
          StatusCreated) user.toJson, s1)

/-- The slice expression `query[:len(query)-1]`.  Every byte of the statement text is
ASCII, so dropping the last byte drops the last character. -/
def dropLastByte (query : String) : String :=
  ⟨query.data.dropLast⟩

/-- The statement text before the trailing trim (lines 138-151). -/
def updateQueryRaw (name email age : String) : String :=
  let query := "UPDATE users SET"
  let query := if name ≠ "" then query ++ " name = ?," else query
  let query := if email ≠ "" then query ++ " email = ?," else query
  let query := if age ≠ "" then query ++ " age = ?," else query
  query

/-- The statement text `updateUser` sends (lines 138-153). -/
def updateQuery (name email age : String) : String :=
  dropLastByte (updateQueryRaw name email age) ++ " WHERE id = ?"

/-- The parameter list `updateUser` sends (lines 139-154). -/
def updateParams (id : Int) (name email age : String) : List Value :=
  let params : List Value := []
  let params := if name ≠ "" then params ++ [Value.str name] else params
  let params := if email ≠ "" then params ++ [Value.str email] else params
  let params := if age ≠ "" then params ++ [Value.str age] else params
  params ++ [Value.int id]

/-- The handler `updateUser` (lines 109-181).  The error of `result.RowsAffected()` is
discarded (line 163) and the value is used. -/
def updateUser (db : SqlDB σ) (r : Request) (s : World σ) : ResponseWriter × World σ :=
  match r.parseErr with
  | some _ => (httpError ResponseWriter.fresh "Failed to parse form data" StatusBadRequest, s)
  | none =>
    let idStr := r.FormValue "id"
    let name := r.FormValue "name"
    let email := r.FormValue "email"
    let age := r.FormValue "age"
    match Atoi idStr with
    | none => (httpError ResponseWriter.fresh "Invalid user ID" StatusBadRequest, s)
    | some id =>
      if name = "" ∧ email = "" ∧ age = "" then
        (httpError ResponseWriter.fresh
          "At least one field (name, email, or age) is required for update"
          StatusBadRequest, s)
      else
        match s.Exec db (updateQuery name email age) (updateParams id name email age) with
        | (Except.error err, s1) =>
          (httpError ResponseWriter.fresh ("Failed to update user: " ++ err)
            StatusInternalServerError, s1)
        | (Except.ok result, s1) =>
          let rowsAffected := result.RowsAffected.1
          if rowsAffected = 0 then
            (httpError ResponseWriter.fresh "User not found or no changes made"
              StatusNotFound, s1)
          else
            match s1.QueryRow db "SELECT id, name, email, age FROM users WHERE id = ?"
                [Value.int id] with
            | (Except.error err, s2) =>
              (httpError ResponseWriter.fresh ("Failed to fetch updated user: " ++ err)
                StatusInternalServerError, s2)
            | (Except.ok (uid, uname, uemail, uage), s2) =>
              let user : User := { ID := uid, Name := uname, Email := uemail, Age := uage }
              (encode (ResponseWriter.fresh.SetContentType "application/json") user.toJson, s2)

/-! ## The storage engine for the `users` table -/

/-- A stored row of `users(id, name, email, age)`; the three data columns hold text. -/
structure Row where
  id : Int
  name : String
  email : String
  age : String
deriving DecidableEq, Repr

/-- The stored table together with the counter of the auto-increment key. -/
structure Table where
  rows : List Row
  nextId : Int
deriving DecidableEq, Repr

/-- The data columns an `UPDATE` can assign. -/
inductive Column where
  | name
  | email
  | age
deriving DecidableEq, Repr

/-- Removes a leading literal from a text, if the text starts with it. -/
def dropLeading : List Char → List Char → Option (List Char)
  | [], s => some s
  | _ :: _, [] => none
  | p :: ps, c :: cs => if p = c then dropLeading ps cs else none

/-- Removes a trailing literal from a text, if the text ends with it. -/
def dropTrailing (lit s : List Char) : Option (List Char) :=
  (dropLeading lit.reverse s.reverse).map List.reverse

/-- Splits a text at every comma. -/
def splitCommas : List Char → List (List Char)
  | [] => [[]]
  | c :: cs =>
    if c = ',' then [] :: splitCommas cs
    else
      match splitCommas cs with
      | [] => [[c]]
      | p :: ps => (c :: p) :: ps

/-- Reads one assignment of a `SET` list. -/
def parseAssignment (cs : List Char) : Option Column :=
  if cs = " name = ?".toList then some Column.name
  else if cs = " email = ?".toList then some Column.email
  else if cs = " age = ?".toList then some Column.age
  else none

/-- Reads every assignment of a `SET` list; fails when one of them is not understood. -/
def parseAssignments : List (List Char) → Option (List Column)
  | [] => some []
  | a :: rest =>
    match parseAssignment a, parseAssignments rest with
    | some c, some cs => some (c :: cs)
    | _, _ => none

/-- Reads a statement of the form `UPDATE users SET <assignments> WHERE id = ?` and
returns the assigned columns in the order written. -/
def parseUpdate (query : String) : Option (List Column) :=
  match dropLeading "UPDATE users SET".toList query.toList with
  | none => none
  | some rest =>
    match dropTrailing " WHERE id = ?".toList rest with
    | none => none
    | some assignments => parseAssignments (splitCommas assignments)

/-- Binds the arguments of an update to its placeholders: one text per assigned column, in
order, then the integer key of the `WHERE` clause. -/
def bindArgs : List Column → List Value → Option (List (Column × String) × Int)
  | [], [Value.int id] => some ([], id)
  | c :: cs, Value.str v :: vs =>
    match bindArgs cs vs with
    | some (as, id) => some ((c, v) :: as, id)
    | none => none
  | _, _ => none

/-- Assigns one column of a row. -/
def Row.set (r : Row) (a : Column × String) : Row :=
  match a.1 with
  | Column.name => { r with name := a.2 }
  | Column.email => { r with email := a.2 }
  | Column.age => { r with age := a.2 }

/-- Applies a list of assignments to a row, left to right. -/
def Row.assign (r : Row) (as : List (Column × String)) : Row :=
  as.foldl Row.set r

/-- The rows after an update: every row with the given key gets the assignments. -/
def updateRows (id : Int) (as : List (Column × String)) (rows : List Row) : List Row :=
  rows.map (fun r => if r.id = id then r.assign as else r)

/-- The number of rows an update changes: rows with the given key whose
values are not already the assigned ones. -/
def changedRows (id : Int) (as : List (Column × String)) (rows : List Row) : Nat :=
  (rows.filter (fun r => r.id = id ∧ r.assign as ≠ r)).length

/-- Modelled from the spec: the storage engine behind the database handle, which is not
part of the repository.  The table is `users(id PK auto-increment, name, email, age)`; an
insert stores the row under the next key and reports that key; an update assigns the
listed columns on the rows with the given key and reports how many rows it changed (zero
when there is no such row or when the values are already identical). -/
def Table.Exec (query : String) (args : List Value) (t : Table) : Except String Result × Table :=
  if query = "INSERT INTO users (name, email, age) VALUES (?, ?, ?)" then
    match args with
    | [Value.str name, Value.str email, Value.str age] =>
      (Except.ok { LastInsertId := (t.nextId, none), RowsAffected := (1, none) },
       { rows := t.rows ++ [{ id := t.nextId, name := name, email := email, age := age }],
         nextId := t.nextId + 1 })
    | _ => (Except.error "sql: statement arguments do not match", t)
  else
    match parseUpdate query with
    | none => (Except.error "sql: statement not understood", t)
    | some cols =>
      match bindArgs cols args with
      | none => (Except.error "sql: statement arguments do not match", t)
      | some (as, id) =>
        (Except.ok { LastInsertId := (0, none),
                     RowsAffected := ((changedRows id as t.rows : Nat), none) },
         { t with rows := updateRows id as t.rows })

/-- Modelled from the spec: the fixed select over id, name, email returns one row per
stored row, in stored order, and every scan succeeds. -/
def Table.Query (query : String) (args : List Value) (t : Table) : Except String Rows × Table :=
  if query = "SELECT id, name, email FROM users" ∧ args = [] then
    (Except.ok { scans := t.rows.map (fun r => Except.ok (r.id, r.name, r.email)),
                 err := none }, t)
  else (Except.error "sql: statement not understood", t)

/-- Modelled from the spec: the re-read of one row by key returns the full stored row,
or the error of `sql.ErrNoRows` when no row has the key. -/
def Table.QueryRow (query : String) (args : List Value) (t : Table) :
    Except String (Int × String × String × String) × Table :=
  if query = "SELECT id, name, email, age FROM users WHERE id = ?" then
    match args with
    | [Value.int id] =>
      match t.rows.find? (fun r => r.id = id) with
      | some r => (Except.ok (r.id, r.name, r.email, r.age), t)
      | none => (Except.error "sql: no rows in result set", t)
    | _ => (Except.error "sql: statement arguments do not match", t)
  else (Except.error "sql: statement not understood", t)

/-- Modelled from the spec: the database of the service, a single `users` table. -/
def tableDB : SqlDB Table :=
  { Exec := Table.Exec, Query := Table.Query, QueryRow := Table.QueryRow }

/-- The assignments the supplied (non-empty) form values stand for, in statement order. -/
def supplied (name email age : String) : List (Column × String) :=
  (if name ≠ "" then [(Column.name, name)] else []) ++
  (if email ≠ "" then [(Column.email, email)] else []) ++
  (if age ≠ "" then [(Column.age, age)] else [])

/-! ## The statement of `updateUser` as the specification words it -/

/-- The `SET` clauses for precisely the non-empty fields, in the order name, email, age. -/
def specClauses (name email age : String) : List String :=
  (if name ≠ "" then [" name = ?"] else []) ++
  (if email ≠ "" then [" email = ?"] else []) ++
  (if age ≠ "" then [" age = ?"] else [])

/-- The statement text as the specification describes it: the fixed head, the clauses
separated by commas, the fixed `WHERE` clause. -/
def specQuery (name email age : String) : String :=
  "UPDATE users SET" ++ String.intercalate "," (specClauses name email age) ++ " WHERE id = ?"

/-- The parameter list as the specification describes it: the non-empty supplied values in
the order name, email, age, followed by the id. -/
def specParams (id : Int) (name email age : String) : List Value :=
  ([name, email, age].filter (fun v => v ≠ "")).map Value.str ++ [Value.int id]

/-- The number of `?` placeholders of a statement text. -/
def placeholders (query : String) : Nat :=
  query.data.count '?'

/-! ## Two databases used as concrete inputs -/

/-- A database that is unreachable: every call fails. -/
def downDB : SqlDB Unit :=
  { Exec := fun _ _ u => (Except.error "dial tcp 127.0.0.1:3306: connect: connection refused", u),
    Query := fun _ _ u => (Except.error "dial tcp 127.0.0.1:3306: connect: connection refused", u),
    QueryRow := fun _ _ u =>
      (Except.error "dial tcp 127.0.0.1:3306: connect: connection refused", u) }

/-- A database whose statements execute, but whose results cannot report the generated id
or the number of affected rows. -/
def noMetaDB : SqlDB Unit :=
  { Exec := fun _ _ u =>
      (Except.ok { LastInsertId := (0, some "LastInsertId is not supported"),
                   RowsAffected := (0, some "RowsAffected is not supported") }, u),
    Query := fun _ _ u => (Except.ok { scans := [], err := none }, u),
    QueryRow := fun _ _ u => (Except.error "sql: no rows in result set", u) }

/-- A database that executes statements but fails on reads: the second row of a listing
does not scan, and the re-read of a row fails. -/
def flakyDB : SqlDB Unit :=
  { Exec := fun _ _ u =>
      (Except.ok { LastInsertId := (1, none), RowsAffected := (1, none) }, u),
    Query := fun _ _ u =>
      (Except.ok { scans := [Except.ok (1, "Alice", "a@x.com"),
                             Except.error "sql: Scan error on column index 1"],
                   err := none }, u),
    QueryRow := fun _ _ u => (Except.error "invalid connection", u) }

/-- The create request of the end-to-end scenario. -/
def postAlice : Request :=
  { parseErr := none, Form := [("name", ["Alice"]), ("email", ["a@x.com"]), ("age", ["30"])] }

/-- The update request of the end-to-end scenario. -/
def putAge31 : Request :=
  { parseErr := none, Form := [("id", ["1"]), ("age", ["31"])] }

/-- The listing request of the end-to-end scenario. -/
def getAll : Request :=
  { parseErr := none, Form := [] }

/-- The empty table of a new database. -/
def emptyTable : Table :=
  { rows := [], nextId := 1 }

/-! ## Facts about the response writer -/

@[simp] theorem httpError_status (msg : String) (code : Nat) :
    (httpError ResponseWriter.fresh msg code).status = code := rfl

@[simp] theorem httpError_body (msg : String) (code : Nat) :
    (httpError ResponseWriter.fresh msg code).body = [Chunk.text (msg ++ "\n")] := rfl

@[simp] theorem httpError_contentType (msg : String) (code : Nat) :
    (httpError ResponseWriter.fresh msg code).contentType = some "text/plain; charset=utf-8" := rfl

@[simp] theorem encode_json_status (j : Json) :
    (encode (ResponseWriter.fresh.SetContentType "application/json") j).status = 200 := rfl

@[simp] theorem encode_json_body (j : Json) :
    (encode (ResponseWriter.fresh.SetContentType "application/json") j).body = [Chunk.json j] := rfl

@[simp] theorem encode_json_contentType (j : Json) :
    (encode (ResponseWriter.fresh.SetContentType "application/json") j).contentType
      = some "application/json" := rfl

@[simp] theorem encode_created_status (j : Json) :
    (encode ((ResponseWriter.fresh.SetContentType "application/json").WriteHeader StatusCreated)
      j).status = 201 := rfl

@[simp] theorem encode_created_body (j : Json) :
    (encode ((ResponseWriter.fresh.SetContentType "application/json").WriteHeader StatusCreated)
      j).body = [Chunk.json j] := rfl

@[simp] theorem encode_created_contentType (j : Json) :
    (encode ((ResponseWriter.fresh.SetContentType "application/json").WriteHeader StatusCreated)
      j).contentType = some "application/json" := rfl

/-! ## The paths through the handlers -/

theorem getUsers_query_error (db : SqlDB σ) (r : Request) (s : World σ) (err : String)
    (hq : (s.Query db "SELECT id, name, email FROM users" []).1 = Except.error err) :
    getUsers db r s = (httpError ResponseWriter.fresh err StatusInternalServerError,
      (s.Query db "SELECT id, name, email FROM users" []).2) := by
  simp only [World.Query] at hq
  simp only [getUsers, World.Query, hq]

theorem getUsers_scan_error (db : SqlDB σ) (r : Request) (s : World σ) (rows : Rows)
    (err : String)
    (hq : (s.Query db "SELECT id, name, email FROM users" []).1 = Except.ok rows)
    (hscan : scanUsers (some []) rows.scans = Except.error err) :
    getUsers db r s = (httpError ResponseWriter.fresh err StatusInternalServerError,
      (s.Query db "SELECT id, name, email FROM users" []).2) := by
  simp only [World.Query] at hq
  simp only [getUsers, World.Query, hq, hscan]

theorem getUsers_ok (db : SqlDB σ) (r : Request) (s : World σ) (rows : Rows)
    (users : UserSlice)
    (hq : (s.Query db "SELECT id, name, email FROM users" []).1 = Except.ok rows)
    (hscan : scanUsers (some []) rows.scans = Except.ok users) :
    getUsers db r s =
      (encode (ResponseWriter.fresh.SetContentType "application/json") users.toJson,
       (s.Query db "SELECT id, name, email FROM users" []).2) := by
  simp only [World.Query] at hq
  simp only [getUsers, World.Query, hq, hscan]

/-- The arguments of the insert `createUser` sends. -/
def insertArgs (r : Request) : List Value :=
  [Value.str (r.FormValue "name"), Value.str (r.FormValue "email"), Value.str (r.FormValue "age")]

theorem createUser_exec_error (db : SqlDB σ) (r : Request) (s : World σ) (err : String)
    (hparse : r.parseErr = none)
    (hall : ¬ (r.FormValue "name" = "" ∨ r.FormValue "email" = "" ∨ r.FormValue "age" = ""))
    (hx : (s.Exec db "INSERT INTO users (name, email, age) VALUES (?, ?, ?)" (insertArgs r)).1
      = Except.error err) :
    createUser db r s =
      (httpError ResponseWriter.fresh ("Failed to create user: " ++ err) StatusInternalServerError,
       (s.Exec db "INSERT INTO users (name, email, age) VALUES (?, ?, ?)" (insertArgs r)).2) := by
  simp only [World.Exec, insertArgs] at hx
  simp only [createUser, hparse, if_neg hall, World.Exec, insertArgs, hx]

theorem createUser_ok (db : SqlDB σ) (r : Request) (s : World σ) (result : Result)
    (hparse : r.parseErr = none)
    (hall : ¬ (r.FormValue "name" = "" ∨ r.FormValue "email" = "" ∨ r.FormValue "age" = ""))
    (hx : (s.Exec db "INSERT INTO users (name, email, age) VALUES (?, ?, ?)" (insertArgs r)).1
      = Except.ok result) :
    createUser db r s =
      (encode ((ResponseWriter.fresh.SetContentType "application/json").WriteHeader StatusCreated)
        (User.toJson { ID := result.LastInsertId.1, Name := r.FormValue "name",
                       Email := r.FormValue "email", Age := r.FormValue "age" }),
       (s.Exec db "INSERT INTO users (name, email, age) VALUES (?, ?, ?)" (insertArgs r)).2) := by
  simp only [World.Exec, insertArgs] at hx
  simp only [createUser, hparse, if_neg hall, World.Exec, insertArgs, hx]

/-- The world after `updateUser` has sent its statement. -/
def afterUpdate (db : SqlDB σ) (r : Request) (s : World σ) (id : Int) : World σ :=
  (s.Exec db (updateQuery (r.FormValue "name") (r.FormValue "email") (r.FormValue "age"))
    (updateParams id (r.FormValue "name") (r.FormValue "email") (r.FormValue "age"))).2

/-- The outcome of the statement `updateUser` sends. -/
def updateOutcome (db : SqlDB σ) (r : Request) (s : World σ) (id : Int) : Except String Result :=
  (s.Exec db (updateQuery (r.FormValue "name") (r.FormValue "email") (r.FormValue "age"))
    (updateParams id (r.FormValue "name") (r.FormValue "email") (r.FormValue "age"))).1

/-- The outcome of the re-read `updateUser` makes after its statement. -/
def rereadOutcome (db : SqlDB σ) (r : Request) (s : World σ) (id : Int) :
    Except String (Int × String × String × String) :=
  ((afterUpdate db r s id).QueryRow db "SELECT id, name, email, age FROM users WHERE id = ?"
    [Value.int id]).1

/-- The world after the re-read of `updateUser`. -/
def afterReread (db : SqlDB σ) (r : Request) (s : World σ) (id : Int) : World σ :=
  ((afterUpdate db r s id).QueryRow db "SELECT id, name, email, age FROM users WHERE id = ?"
    [Value.int id]).2

theorem updateUser_exec_error (db : SqlDB σ) (r : Request) (s : World σ) (id : Int)
    (err : String) (hparse : r.parseErr = none) (hid : Atoi (r.FormValue "id") = some id)
    (hsome : ¬ (r.FormValue "name" = "" ∧ r.FormValue "email" = "" ∧ r.FormValue "age" = ""))
    (hx : updateOutcome db r s id = Except.error err) :
    updateUser db r s =
      (httpError ResponseWriter.fresh ("Failed to update user: " ++ err) StatusInternalServerError,
       afterUpdate db r s id) := by
  simp only [updateOutcome, World.Exec] at hx
  simp only [updateUser, hparse, hid, if_neg hsome, World.Exec, afterUpdate, hx]

theorem updateUser_zero_rows (db : SqlDB σ) (r : Request) (s : World σ) (id : Int)
    (result : Result) (hparse : r.parseErr = none) (hid : Atoi (r.FormValue "id") = some id)
    (hsome : ¬ (r.FormValue "name" = "" ∧ r.FormValue "email" = "" ∧ r.FormValue "age" = ""))
    (hx : updateOutcome db r s id = Except.ok result) (hzero : result.RowsAffected.1 = 0) :
    updateUser db r s =
      (httpError ResponseWriter.fresh "User not found or no changes made" StatusNotFound,
       afterUpdate db r s id) := by
  simp only [updateOutcome, World.Exec] at hx
  simp only [updateUser, hparse, hid, if_neg hsome, World.Exec, afterUpdate, hx, if_pos hzero]

theorem updateUser_reread_error (db : SqlDB σ) (r : Request) (s : World σ) (id : Int)
    (result : Result) (err : String) (hparse : r.parseErr = none)
    (hid : Atoi (r.FormValue "id") = some id)
    (hsome : ¬ (r.FormValue "name" = "" ∧ r.FormValue "email" = "" ∧ r.FormValue "age" = ""))
    (hx : updateOutcome db r s id = Except.ok result) (hrows : result.RowsAffected.1 ≠ 0)
    (hq : rereadOutcome db r s id = Except.error err) :
    updateUser db r s =
      (httpError ResponseWriter.fresh ("Failed to fetch updated user: " ++ err)
        StatusInternalServerError, afterReread db r s id) := by
  simp only [updateOutcome, World.Exec] at hx
  simp only [rereadOutcome, afterUpdate, World.QueryRow, World.Exec] at hq
  simp only [updateUser, hparse, hid, if_neg hsome, World.Exec, afterUpdate, afterReread, hx,
    if_neg hrows, World.QueryRow, hq]

theorem updateUser_ok (db : SqlDB σ) (r : Request) (s : World σ) (id : Int)
    (result : Result) (u : Int × String × String × String) (hparse : r.parseErr = none)
    (hid : Atoi (r.FormValue "id") = some id)
    (hsome : ¬ (r.FormValue "name" = "" ∧ r.FormValue "email" = "" ∧ r.FormValue "age" = ""))
    (hx : updateOutcome db r s id = Except.ok result) (hrows : result.RowsAffected.1 ≠ 0)
    (hq : rereadOutcome db r s id = Except.ok u) :
    updateUser db r s =
      (encode (ResponseWriter.fresh.SetContentType "application/json")
        (User.toJson { ID := u.1, Name := u.2.1, Email := u.2.2.1, Age := u.2.2.2 }),
       afterReread db r s id) := by
  simp only [updateOutcome, World.Exec] at hx
  simp only [rereadOutcome, afterUpdate, World.QueryRow, World.Exec] at hq
  simp only [updateUser, hparse, hid, if_neg hsome, World.Exec, afterUpdate, afterReread, hx,
    if_neg hrows, World.QueryRow, hq]

/-! ## The listing loop and the table -/

/-- The `User` that the loop of `getUsers` builds from the three scanned columns. -/
def scanned (v : Int × String × String) : User :=
  { ID := v.1, Name := v.2.1, Email := v.2.2, Age := "" }

/-- The `User` that `getUsers` lists for a stored row. -/
def listed (row : Row) : User :=
  { ID := row.id, Name := row.name, Email := row.email, Age := "" }

theorem scanUsers_all_ok (acc : List User) (vals : List (Int × String × String)) :
    scanUsers (some acc) (vals.map Except.ok) = Except.ok (some (acc ++ vals.map scanned)) := by
  induction vals generalizing acc with
  | nil => simp [scanUsers]
  | cons v vs ih =>
    obtain ⟨id, name, email⟩ := v
    simp [scanUsers, UserSlice.append, ih, scanned]

theorem scanUsers_first_error (acc : List User) (vals : List (Int × String × String))
    (err : String) (rest : List (Except String (Int × String × String))) :
    scanUsers (some acc) (vals.map Except.ok ++ Except.error err :: rest) = Except.error err := by
  induction vals generalizing acc with
  | nil => simp [scanUsers]
  | cons v vs ih =>
    obtain ⟨id, name, email⟩ := v
    simp [scanUsers, UserSlice.append, ih]

/-- The call by which `getUsers` sends its query. -/
def listCall : Call :=
  ⟨Method.Query, "SELECT id, name, email FROM users", []⟩

theorem getUsers_table (r : Request) (t : Table) (log : List Call) :
    getUsers tableDB r { store := t, log := log } =
      (encode (ResponseWriter.fresh.SetContentType "application/json")
        (Json.arr ((t.rows.map listed).map User.toJson)),
       { store := t, log := log ++ [listCall] }) := by
  have hq : (World.Query tableDB { store := t, log := log }
      "SELECT id, name, email FROM users" []).1
      = Except.ok { scans := (t.rows.map (fun row => (row.id, row.name, row.email))).map Except.ok,
                    err := none } := by
    simp [World.Query, tableDB, Table.Query, List.map_map, Function.comp_def]
  rw [getUsers_ok tableDB r _ _ _ hq (scanUsers_all_ok [] _)]
  simp [World.Query, tableDB, Table.Query, UserSlice.toJson, listCall, List.map_map,
    Function.comp_def, scanned, listed]

theorem createUser_table (r : Request) (t : Table) (log : List Call)
    (hparse : r.parseErr = none)
    (hall : ¬ (r.FormValue "name" = "" ∨ r.FormValue "email" = "" ∨ r.FormValue "age" = "")) :
    createUser tableDB r { store := t, log := log } =
      (encode ((ResponseWriter.fresh.SetContentType "application/json").WriteHeader StatusCreated)
        (User.toJson { ID := t.nextId, Name := r.FormValue "name",
                       Email := r.FormValue "email", Age := r.FormValue "age" }),
       { store := { rows := t.rows ++ [{ id := t.nextId, name := r.FormValue "name",
                                         email := r.FormValue "email",
                                         age := r.FormValue "age" }],
                    nextId := t.nextId + 1 },
         log := log ++ [⟨Method.Exec, "INSERT INTO users (name, email, age) VALUES (?, ?, ?)",
                         insertArgs r⟩] }) := by
  have hx : (World.Exec tableDB { store := t, log := log }
      "INSERT INTO users (name, email, age) VALUES (?, ?, ?)" (insertArgs r)).1
      = Except.ok { LastInsertId := (t.nextId, none), RowsAffected := (1, none) } := by
    simp [World.Exec, tableDB, Table.Exec, insertArgs]
  rw [createUser_ok tableDB r _ _ hparse hall hx]
  simp [World.Exec, tableDB, Table.Exec, insertArgs]

/-! ## createUser: validation -/

/-- C1: a create request whose form parses and in which name, email or age is empty or
absent is answered with status 400 (body "All fields are required"), and the world is left
as it was: no call is made through the database handle and the store is unchanged. -/
theorem createUser_missing_field (db : SqlDB σ) (r : Request) (s : World σ)
    (hparse : r.parseErr = none)
    (hmiss : r.FormValue "name" = "" ∨ r.FormValue "email" = "" ∨ r.FormValue "age" = "") :
    (createUser db r s).1.status = 400 ∧
    (createUser db r s).1.body = [Chunk.text "All fields are required\n"] ∧
    (createUser db r s).2.log = s.log ∧
    (createUser db r s).2.store = s.store := by
  simp [createUser, hparse, if_pos hmiss]

/-- C1 at a concrete input: the age is absent, the table holds one row. -/
theorem createUser_missing_field_witness :
    (createUser tableDB
        { parseErr := none, Form := [("name", ["Bob"]), ("email", ["b@x.com"])] }
        { store := { rows := [⟨1, "Alice", "a@x.com", "30"⟩], nextId := 2 }, log := [] }).1.status
      = 400 ∧
    (createUser tableDB
        { parseErr := none, Form := [("name", ["Bob"]), ("email", ["b@x.com"])] }
        { store := { rows := [⟨1, "Alice", "a@x.com", "30"⟩], nextId := 2 }, log := [] }).2.store
      = { rows := [⟨1, "Alice", "a@x.com", "30"⟩], nextId := 2 } :=
  have h := createUser_missing_field tableDB
    { parseErr := none, Form := [("name", ["Bob"]), ("email", ["b@x.com"])] }
    { store := { rows := [⟨1, "Alice", "a@x.com", "30"⟩], nextId := 2 }, log := [] }
    rfl (Or.inr (Or.inr (by decide)))
  ⟨h.1, h.2.2.2⟩

/-! ## updateUser: the statement it builds -/

theorem updateQuery_eq_specQuery (name email age : String)
    (h : ¬ (name = "" ∧ email = "" ∧ age = "")) :
    updateQuery name email age = specQuery name email age := by
  by_cases hn : name = "" <;> by_cases he : email = "" <;> by_cases ha : age = "" <;>
    simp only [updateQuery, updateQueryRaw, specQuery, specClauses, hn, he, ha, ne_eq,
      not_true_eq_false, not_false_eq_true, if_true, if_false, and_self] at h ⊢ <;>
    decide

theorem updateParams_eq_specParams (id : Int) (name email age : String) :
    updateParams id name email age = specParams id name email age := by
  by_cases hn : name = "" <;> by_cases he : email = "" <;> by_cases ha : age = "" <;>
    simp [updateParams, specParams, hn, he, ha, List.filter]

theorem placeholders_updateQuery (id : Int) (name email age : String)
    (h : ¬ (name = "" ∧ email = "" ∧ age = "")) :
    placeholders (updateQuery name email age) = (updateParams id name email age).length := by
  by_cases hn : name = "" <;> by_cases he : email = "" <;> by_cases ha : age = "" <;>
    simp only [updateQuery, updateQueryRaw, updateParams, hn, he, ha, ne_eq,
      not_true_eq_false, not_false_eq_true, if_true, if_false, and_self] at h ⊢
  all_goals rfl

theorem updateQueryRaw_trailing_comma (name email age : String)
    (h : ¬ (name = "" ∧ email = "" ∧ age = "")) :
    (updateQueryRaw name email age).data.getLast? = some ',' ∧
    updateQueryRaw name email age =
      "UPDATE users SET" ++ String.join ((specClauses name email age).map (fun c => c ++ ",")) := by
  by_cases hn : name = "" <;> by_cases he : email = "" <;> by_cases ha : age = "" <;>
    simp only [updateQueryRaw, specClauses, hn, he, ha, ne_eq,
      not_true_eq_false, not_false_eq_true, if_true, if_false, and_self] at h ⊢ <;>
    decide

/-- C10: for every id and every name, email, age that are not all empty, the statement
text `updateUser` builds is "UPDATE users SET", then the clauses " name = ?", " email = ?",
" age = ?" for precisely the non-empty fields, in that order and separated by commas, then
" WHERE id = ?"; the parameters are the non-empty values in the same order followed by the
id; there are as many placeholders as parameters; every clause of the SET list assigns
name, email or age (never id); and the text before the trim is the head followed by the
clauses each with its comma, so that the character the trim removes is a comma. -/
theorem updateUser_statement (id : Int) (name email age : String)
    (h : ¬ (name = "" ∧ email = "" ∧ age = "")) :
    updateQuery name email age = specQuery name email age ∧
    updateParams id name email age = specParams id name email age ∧
    placeholders (updateQuery name email age) = (updateParams id name email age).length ∧
    (∀ c ∈ specClauses name email age, c = " name = ?" ∨ c = " email = ?" ∨ c = " age = ?") ∧
    (updateQueryRaw name email age).data.getLast? = some ',' ∧
    updateQueryRaw name email age =
      "UPDATE users SET" ++ String.join ((specClauses name email age).map (fun c => c ++ ",")) := by
  refine ⟨updateQuery_eq_specQuery name email age h, updateParams_eq_specParams id name email age,
    placeholders_updateQuery id name email age h, ?_,
    (updateQueryRaw_trailing_comma name email age h).1,
    (updateQueryRaw_trailing_comma name email age h).2⟩
  intro c hc
  simp only [specClauses, List.mem_append] at hc
  rcases hc with (hc | hc) | hc <;> split at hc <;> simp_all

/-- C10 at a concrete input: id 7, a new email and a new age, no name. -/
theorem updateUser_statement_witness :
    ¬ (("" : String) = "" ∧ ("b@x.com" : String) = "" ∧ ("31" : String) = "") ∧
    updateQuery "" "b@x.com" "31" = "UPDATE users SET email = ?, age = ? WHERE id = ?" ∧
    updateParams 7 "" "b@x.com" "31" = [Value.str "b@x.com", Value.str "31", Value.int 7] ∧
    placeholders (updateQuery "" "b@x.com" "31") = 3 :=
  have h := updateUser_statement 7 "" "b@x.com" "31" (by decide)
  ⟨by decide, h.1.trans (by decide), h.2.1.trans (by decide), h.2.2.1.trans (by decide)⟩

/-! ## updateUser: validation -/

/-- The call by which `updateUser` sends its statement. -/
def updateCall (id : Int) (name email age : String) : Call :=
  ⟨Method.Exec, updateQuery name email age, updateParams id name email age⟩

/-- The call by which `updateUser` reads the updated row back. -/
def rereadCall (id : Int) : Call :=
  ⟨Method.QueryRow, "SELECT id, name, email, age FROM users WHERE id = ?", [Value.int id]⟩

/-- C3: for an update request whose form parses: when the id does not parse
(`strconv.Atoi` fails, as it does for an absent id and for "abc") the answer is status 400
and nothing is sent to the database; when the id parses and name, email, age are all empty
the answer is status 400 and nothing is sent to the database; in every other case the
status is not 400 and the calls made are the one UPDATE statement, followed at most by the
re-read. -/
theorem updateUser_validation (db : SqlDB σ) (r : Request) (s : World σ)
    (hparse : r.parseErr = none) :
    (Atoi (r.FormValue "id") = none →
      (updateUser db r s).1.status = 400 ∧
      (updateUser db r s).1.body = [Chunk.text "Invalid user ID\n"] ∧
      (updateUser db r s).2.log = s.log ∧ (updateUser db r s).2.store = s.store) ∧
    (∀ id, Atoi (r.FormValue "id") = some id →
      (r.FormValue "name" = "" ∧ r.FormValue "email" = "" ∧ r.FormValue "age" = "") →
      (updateUser db r s).1.status = 400 ∧
      (updateUser db r s).2.log = s.log ∧ (updateUser db r s).2.store = s.store) ∧
    (∀ id, Atoi (r.FormValue "id") = some id →
      ¬ (r.FormValue "name" = "" ∧ r.FormValue "email" = "" ∧ r.FormValue "age" = "") →
      (updateUser db r s).1.status ≠ 400 ∧
      ((updateUser db r s).2.log =
          s.log ++ [updateCall id (r.FormValue "name") (r.FormValue "email") (r.FormValue "age")] ∨
       (updateUser db r s).2.log =
          s.log ++ [updateCall id (r.FormValue "name") (r.FormValue "email") (r.FormValue "age"),
                    rereadCall id])) ∧
    (r.Form.lookup "id" = none → Atoi (r.FormValue "id") = none) ∧
    Atoi "abc" = none := by
  refine ⟨?_, ?_, ?_, ?_, by decide⟩
  · intro hid
    simp [updateUser, hparse, hid]
  · intro id hid hall
    simp [updateUser, hparse, hid, hall]
  · intro id hid hsome
    have hlog1 : (afterUpdate db r s id).log = s.log ++
        [updateCall id (r.FormValue "name") (r.FormValue "email") (r.FormValue "age")] := rfl
    have hlog2 : (afterReread db r s id).log = s.log ++
        [updateCall id (r.FormValue "name") (r.FormValue "email") (r.FormValue "age"),
         rereadCall id] := by
      simp [afterReread, World.QueryRow, hlog1, rereadCall]
    cases hx : updateOutcome db r s id with
    | error err =>
      rw [updateUser_exec_error db r s id err hparse hid hsome hx]
      exact ⟨by simp, Or.inl hlog1⟩
    | ok result =>
      by_cases hzero : result.RowsAffected.1 = 0
      · rw [updateUser_zero_rows db r s id result hparse hid hsome hx hzero]
        exact ⟨by simp, Or.inl hlog1⟩
      · cases hq : rereadOutcome db r s id with
        | error err =>
          rw [updateUser_reread_error db r s id result err hparse hid hsome hx hzero hq]
          exact ⟨by simp, Or.inr hlog2⟩
        | ok u =>
          rw [updateUser_ok db r s id result u hparse hid hsome hx hzero hq]
          exact ⟨by simp, Or.inr hlog2⟩
  · intro hno
    simp only [Request.FormValue, hno]
    decide

/-- C3 at concrete inputs, in front of an unreachable database: the id "abc" is answered
with 400 and no call; the id "1" with a new age is not answered with 400, and the one
call made is the UPDATE statement. -/
theorem updateUser_validation_witness :
    (updateUser downDB { parseErr := none, Form := [("id", ["abc"]), ("name", ["Bob"])] }
      { store := (), log := [] }).1.status = 400 ∧
    (updateUser downDB { parseErr := none, Form := [("id", ["abc"]), ("name", ["Bob"])] }
      { store := (), log := [] }).2.log = [] ∧
    (updateUser downDB putAge31 { store := (), log := [] }).1.status ≠ 400 ∧
    (updateUser downDB putAge31 { store := (), log := [] }).2.log =
      [⟨Method.Exec, "UPDATE users SET age = ? WHERE id = ?", [Value.str "31", Value.int 1]⟩] :=
  have h := (updateUser_validation downDB
    { parseErr := none, Form := [("id", ["abc"]), ("name", ["Bob"])] }
    { store := (), log := [] } rfl).1 (by decide)
  have h3 := (updateUser_validation downDB putAge31 { store := (), log := [] } rfl).2.2.1 1
    (by decide) (by decide)
  ⟨h.1, h.2.2.1, h3.1, by decide⟩

/-! ## getUsers -/

/-- C7: when the listing query succeeds and delivers no row, `getUsers` answers with status
200, content type application/json and the empty JSON array as body: the body is neither
`null` nor missing.  In particular this is the answer on a table without rows. -/
theorem getUsers_no_rows (db : SqlDB σ) (r : Request) (s : World σ) (rows : Rows)
    (hq : (s.Query db "SELECT id, name, email FROM users" []).1 = Except.ok rows)
    (hnone : rows.scans = []) :
    (getUsers db r s).1.status = 200 ∧
    (getUsers db r s).1.contentType = some "application/json" ∧
    (getUsers db r s).1.body = [Chunk.json (Json.arr [])] ∧
    (getUsers db r s).1.body ≠ [Chunk.json Json.null] ∧
    (getUsers db r s).1.body ≠ [] ∧
    (∀ (t : Table) (log : List Call), t.rows = [] →
      (getUsers tableDB r { store := t, log := log }).1.status = 200 ∧
      (getUsers tableDB r { store := t, log := log }).1.body = [Chunk.json (Json.arr [])]) := by
  have hscan : scanUsers (some []) rows.scans = Except.ok (some []) := by
    rw [hnone]; rfl
  rw [getUsers_ok db r s rows _ hq hscan]
  refine ⟨rfl, rfl, rfl, by simp [UserSlice.toJson], by simp, ?_⟩
  intro t log ht
  rw [getUsers_table, ht]
  exact ⟨rfl, rfl⟩

/-- C7 at a concrete input: the listing on the empty table of a new database. -/
theorem getUsers_no_rows_witness :
    (World.Query tableDB { store := emptyTable, log := [] }
      "SELECT id, name, email FROM users" []).1 = Except.ok { scans := [], err := none } ∧
    (getUsers tableDB getAll { store := emptyTable, log := [] }).1.status = 200 ∧
    (getUsers tableDB getAll { store := emptyTable, log := [] }).1.body
      = [Chunk.json (Json.arr [])] :=
  have h := getUsers_no_rows tableDB getAll { store := emptyTable, log := [] }
    { scans := [], err := none } rfl rfl
  ⟨rfl, h.1, h.2.2.1⟩

/-- The world of the end-to-end scenario after the create and the update request. -/
def scenarioWorld : World Table :=
  (updateUser tableDB putAge31
    (createUser tableDB postAlice { store := emptyTable, log := [] }).2).2

/-- C8, as stated, fails: in the end-to-end scenario the body of GET /users is not the
array with the one object of the three members id, name, email; the object has a fourth
member, age, with the empty string as value. -/
theorem getUsers_scenario_has_age :
    (getUsers tableDB getAll scenarioWorld).1.body ≠
      [Chunk.json (Json.arr [Json.obj [("id", Json.num 1), ("name", Json.str "Alice"),
        ("email", Json.str "a@x.com")]])] ∧
    (getUsers tableDB getAll scenarioWorld).1.body =
      [Chunk.json (Json.arr [Json.obj [("id", Json.num 1), ("name", Json.str "Alice"),
        ("email", Json.str "a@x.com"), ("age", Json.str "")]])] := by
  have h : (getUsers tableDB getAll scenarioWorld).1.body =
      [Chunk.json (Json.arr [Json.obj [("id", Json.num 1), ("name", Json.str "Alice"),
        ("email", Json.str "a@x.com"), ("age", Json.str "")]])] := by
    rfl
  refine ⟨?_, h⟩
  rw [h]
  simp

/-- C8, amended: when the listing query succeeds and every scan succeeds, `getUsers`
answers with status 200, content type application/json and an array with one object per
delivered row, in order; each object has the members id, name, email of the row and a
member age whose value is the empty string.  On the table these are the stored rows in
stored order, and in the end-to-end scenario the body is the array of the one object with
id 1, name "Alice", email "a@x.com" and age "". -/
theorem getUsers_lists_rows (db : SqlDB σ) (r : Request) (s : World σ) (rows : Rows)
    (vals : List (Int × String × String))
    (hq : (s.Query db "SELECT id, name, email FROM users" []).1 = Except.ok rows)
    (hscans : rows.scans = vals.map Except.ok) :
    (getUsers db r s).1.status = 200 ∧
    (getUsers db r s).1.contentType = some "application/json" ∧
    (getUsers db r s).1.body =
      [Chunk.json (Json.arr (vals.map (fun v =>
        Json.obj [("id", Json.num v.1), ("name", Json.str v.2.1), ("email", Json.str v.2.2),
                  ("age", Json.str "")])))] ∧
    (∀ (t : Table) (log : List Call),
      (getUsers tableDB r { store := t, log := log }).1.status = 200 ∧
      (getUsers tableDB r { store := t, log := log }).1.body =
        [Chunk.json (Json.arr (t.rows.map (fun row =>
          Json.obj [("id", Json.num row.id), ("name", Json.str row.name),
                    ("email", Json.str row.email), ("age", Json.str "")])))]) ∧
    (getUsers tableDB getAll scenarioWorld).1.body =
      [Chunk.json (Json.arr [Json.obj [("id", Json.num 1), ("name", Json.str "Alice"),
        ("email", Json.str "a@x.com"), ("age", Json.str "")]])] := by
  have hscan : scanUsers (some []) rows.scans = Except.ok (some ([] ++ vals.map scanned)) := by
    rw [hscans]; exact scanUsers_all_ok [] vals
  rw [getUsers_ok db r s rows _ hq hscan]
  refine ⟨rfl, rfl, ?_, ?_, by rfl⟩
  · simp [UserSlice.toJson, List.map_map, Function.comp_def, scanned, User.toJson]
  · intro t log
    rw [getUsers_table]
    refine ⟨rfl, ?_⟩
    simp [List.map_map, Function.comp_def, listed, User.toJson]

/-- C8, amended, at a concrete input: a table of two rows. -/
theorem getUsers_lists_rows_witness :
    (getUsers tableDB getAll
      { store := { rows := [⟨1, "Alice", "a@x.com", "31"⟩, ⟨2, "Bob", "b@x.com", "40"⟩],
                   nextId := 3 }, log := [] }).1.body =
      [Chunk.json (Json.arr
        [Json.obj [("id", Json.num 1), ("name", Json.str "Alice"),
                   ("email", Json.str "a@x.com"), ("age", Json.str "")],
         Json.obj [("id", Json.num 2), ("name", Json.str "Bob"),
                   ("email", Json.str "b@x.com"), ("age", Json.str "")]])] :=
  (getUsers_lists_rows tableDB getAll
    { store := { rows := [⟨1, "Alice", "a@x.com", "31"⟩, ⟨2, "Bob", "b@x.com", "40"⟩],
                 nextId := 3 }, log := [] }
    { scans := [Except.ok (1, "Alice", "a@x.com"), Except.ok (2, "Bob", "b@x.com")],
      err := none }
    [(1, "Alice", "a@x.com"), (2, "Bob", "b@x.com")] rfl rfl).2.2.1

/-! ## createUser: the insert -/

/-- A create request that carries all three fields and whose form did not parse. -/
def postAliceMalformed : Request :=
  { postAlice with parseErr := some "invalid semicolon separator in query" }

/-- C2, as stated, fails: with name, email and age all non-empty, the answer is status 500
when the insert fails, and status 400 when the form does not parse; in both cases it is
not status 201. -/
theorem createUser_not_always_created :
    ¬ (postAlice.FormValue "name" = "" ∨ postAlice.FormValue "email" = "" ∨
       postAlice.FormValue "age" = "") ∧
    (createUser downDB postAlice { store := (), log := [] }).1.status = 500 ∧
    (createUser downDB postAlice { store := (), log := [] }).1.status ≠ 201 ∧
    ¬ (postAliceMalformed.FormValue "name" = "" ∨ postAliceMalformed.FormValue "email" = "" ∨
       postAliceMalformed.FormValue "age" = "") ∧
    (createUser tableDB postAliceMalformed { store := emptyTable, log := [] }).1.status = 400 := by
  refine ⟨by decide, by rfl, ?_, by decide, by rfl⟩
  have h : (createUser downDB postAlice { store := (), log := [] }).1.status = 500 := by rfl
  rw [h]
  decide

/-- C2, amended: for every create request whose form parses, in which name, email and age
are all non-empty, and whose insert executes without error, `createUser` answers with
status 201 and a JSON `User` whose name, email and age are the supplied values and whose
id is the id the result of the insert reports.  On the table the insert does execute, the
answer is 201, and a subsequent `getUsers` lists the stored rows followed by the new row,
which has the id of the answer and the supplied name and email. -/
theorem createUser_created (db : SqlDB σ) (r r2 : Request) (s : World σ) (result : Result)
    (t : Table) (log : List Call)
    (hparse : r.parseErr = none)
    (hall : ¬ (r.FormValue "name" = "" ∨ r.FormValue "email" = "" ∨ r.FormValue "age" = ""))
    (hx : (s.Exec db "INSERT INTO users (name, email, age) VALUES (?, ?, ?)" (insertArgs r)).1
      = Except.ok result) :
    (createUser db r s).1.status = 201 ∧
    (createUser db r s).1.contentType = some "application/json" ∧
    (createUser db r s).1.body =
      [Chunk.json (Json.obj [("id", Json.num result.LastInsertId.1),
        ("name", Json.str (r.FormValue "name")), ("email", Json.str (r.FormValue "email")),
        ("age", Json.str (r.FormValue "age"))])] ∧
    (createUser tableDB r { store := t, log := log }).1.status = 201 ∧
    (createUser tableDB r { store := t, log := log }).1.body =
      [Chunk.json (Json.obj [("id", Json.num t.nextId),
        ("name", Json.str (r.FormValue "name")), ("email", Json.str (r.FormValue "email")),
        ("age", Json.str (r.FormValue "age"))])] ∧
    (getUsers tableDB r2 (createUser tableDB r { store := t, log := log }).2).1.body =
      [Chunk.json (Json.arr ((t.rows.map listed ++
        [({ ID := t.nextId, Name := r.FormValue "name", Email := r.FormValue "email",
            Age := "" } : User)]).map User.toJson))] := by
  rw [createUser_ok db r s result hparse hall hx, createUser_table r t log hparse hall]
  refine ⟨rfl, rfl, rfl, rfl, rfl, ?_⟩
  rw [getUsers_table]
  simp [listed]

/-- C2, amended, at a concrete input: the create request of the end-to-end scenario on the
empty table of a new database, where the generated id is 1. -/
theorem createUser_created_witness :
    postAlice.parseErr = none ∧
    (createUser tableDB postAlice { store := emptyTable, log := [] }).1.status = 201 ∧
    (createUser tableDB postAlice { store := emptyTable, log := [] }).1.body =
      [Chunk.json (Json.obj [("id", Json.num 1), ("name", Json.str "Alice"),
        ("email", Json.str "a@x.com"), ("age", Json.str "30")])] :=
  have h := createUser_created tableDB postAlice getAll { store := emptyTable, log := [] }
    { LastInsertId := (1, none), RowsAffected := (1, none) } emptyTable [] rfl (by decide) rfl
  ⟨rfl, h.1, h.2.2.1⟩

/-! ## Storage failures -/

/-- A listing request answered by a database that loses the connection after the first
row: `Next` delivers one row and then returns false, and `rows.Err()` holds the error. -/
def lossyDB : SqlDB Unit :=
  { Exec := fun _ _ u => (Except.error "invalid connection", u),
    Query := fun _ _ u =>
      (Except.ok { scans := [Except.ok (1, "Alice", "a@x.com")],
                   err := some "unexpected EOF" }, u),
    QueryRow := fun _ _ u => (Except.error "invalid connection", u) }

/-- The loop of `getUsers` does not look at `rows.Err()`: an iteration that ends with an
error is answered like a complete one, with status 200 and the rows delivered so far. -/
theorem getUsers_iteration_error_unchecked :
    (getUsers lossyDB getAll { store := (), log := [] }).1.status = 200 ∧
    (getUsers lossyDB getAll { store := (), log := [] }).1.body =
      [Chunk.json (Json.arr [Json.obj [("id", Json.num 1), ("name", Json.str "Alice"),
        ("email", Json.str "a@x.com"), ("age", Json.str "")]])] :=
  ⟨rfl, rfl⟩

/-- C9, as stated, fails: when the insert executes but the generated id cannot be
obtained (`LastInsertId` returns an error), `createUser` discards the error and answers
with status 201 and a `User` body, not with status 500. -/
theorem createUser_lost_id_is_created :
    (World.Exec noMetaDB { store := (), log := [] }
      "INSERT INTO users (name, email, age) VALUES (?, ?, ?)" (insertArgs postAlice)).1 =
      Except.ok { LastInsertId := (0, some "LastInsertId is not supported"),
                  RowsAffected := (0, some "RowsAffected is not supported") } ∧
    (createUser noMetaDB postAlice { store := (), log := [] }).1.status = 201 ∧
    (createUser noMetaDB postAlice { store := (), log := [] }).1.status ≠ 500 ∧
    (createUser noMetaDB postAlice { store := (), log := [] }).1.body =
      [Chunk.json (Json.obj [("id", Json.num 0), ("name", Json.str "Alice"),
        ("email", Json.str "a@x.com"), ("age", Json.str "30")])] := by
  have h : (createUser noMetaDB postAlice { store := (), log := [] }).1.status = 201 := by rfl
  refine ⟨rfl, h, ?_, by rfl⟩
  rw [h]
  decide

/-- C9, amended: an error returned by a call through the database handle, or by the scan
of a row, is answered with status 500, a plain-text body that carries the text of the
error, and no success body.  For `getUsers`: an error of the query, or of the scan of a
delivered row, with the error text alone as body.  For `createUser`: an error of the
insert, with the text after "Failed to create user: ".  For `updateUser`: an error of the
UPDATE statement or of the re-read, with the text after "Failed to update user: " or
"Failed to fetch updated user: ".  (The errors of `LastInsertId` and `RowsAffected` are
discarded by the handlers and are no part of this statement.) -/
theorem storage_error_is_500 (db : SqlDB σ) (r : Request) (s : World σ) (err : String) :
    ((s.Query db "SELECT id, name, email FROM users" []).1 = Except.error err →
      (getUsers db r s).1.status = 500 ∧
      (getUsers db r s).1.body = [Chunk.text (err ++ "\n")]) ∧
    (∀ (rows : Rows) (vals : List (Int × String × String))
        (rest : List (Except String (Int × String × String))),
      (s.Query db "SELECT id, name, email FROM users" []).1 = Except.ok rows →
      rows.scans = vals.map Except.ok ++ Except.error err :: rest →
      (getUsers db r s).1.status = 500 ∧
      (getUsers db r s).1.body = [Chunk.text (err ++ "\n")]) ∧
    (r.parseErr = none →
      ¬ (r.FormValue "name" = "" ∨ r.FormValue "email" = "" ∨ r.FormValue "age" = "") →
      (s.Exec db "INSERT INTO users (name, email, age) VALUES (?, ?, ?)" (insertArgs r)).1
        = Except.error err →
      (createUser db r s).1.status = 500 ∧
      (createUser db r s).1.body = [Chunk.text ("Failed to create user: " ++ err ++ "\n")]) ∧
    (∀ id : Int, r.parseErr = none → Atoi (r.FormValue "id") = some id →
      ¬ (r.FormValue "name" = "" ∧ r.FormValue "email" = "" ∧ r.FormValue "age" = "") →
      updateOutcome db r s id = Except.error err →
      (updateUser db r s).1.status = 500 ∧
      (updateUser db r s).1.body = [Chunk.text ("Failed to update user: " ++ err ++ "\n")]) ∧
    (∀ (id : Int) (result : Result), r.parseErr = none → Atoi (r.FormValue "id") = some id →
      ¬ (r.FormValue "name" = "" ∧ r.FormValue "email" = "" ∧ r.FormValue "age" = "") →
      updateOutcome db r s id = Except.ok result → result.RowsAffected.1 ≠ 0 →
      rereadOutcome db r s id = Except.error err →
      (updateUser db r s).1.status = 500 ∧
      (updateUser db r s).1.body =
        [Chunk.text ("Failed to fetch updated user: " ++ err ++ "\n")]) := by
  refine ⟨?_, ?_, ?_, ?_, ?_⟩
  · intro hq
    rw [getUsers_query_error db r s err hq]
    exact ⟨rfl, rfl⟩
  · intro rows vals rest hq hscans
    have hscan : scanUsers (some []) rows.scans = Except.error err := by
      rw [hscans]; exact scanUsers_first_error [] vals err rest
    rw [getUsers_scan_error db r s rows err hq hscan]
    exact ⟨rfl, rfl⟩
  · intro hparse hall hx
    rw [createUser_exec_error db r s err hparse hall hx]
    exact ⟨rfl, rfl⟩
  · intro id hparse hid hsome hx
    rw [updateUser_exec_error db r s id err hparse hid hsome hx]
    exact ⟨rfl, rfl⟩
  · intro id result hparse hid hsome hx hrows hq
    rw [updateUser_reread_error db r s id result err hparse hid hsome hx hrows hq]
    exact ⟨rfl, rfl⟩

/-- C9, amended, at concrete inputs: the three handlers in front of an unreachable
database, and the two reading handlers in front of a database whose reads fail. -/
theorem storage_error_is_500_witness :
    (getUsers downDB getAll { store := (), log := [] }).1.status = 500 ∧
    (getUsers downDB getAll { store := (), log := [] }).1.body =
      [Chunk.text "dial tcp 127.0.0.1:3306: connect: connection refused\n"] ∧
    (createUser downDB postAlice { store := (), log := [] }).1.status = 500 ∧
    (updateUser downDB putAge31 { store := (), log := [] }).1.status = 500 ∧
    (getUsers flakyDB getAll { store := (), log := [] }).1.status = 500 ∧
    (getUsers flakyDB getAll { store := (), log := [] }).1.body =
      [Chunk.text "sql: Scan error on column index 1\n"] ∧
    (updateUser flakyDB putAge31 { store := (), log := [] }).1.status = 500 ∧
    (updateUser flakyDB putAge31 { store := (), log := [] }).1.body =
      [Chunk.text "Failed to fetch updated user: invalid connection\n"] :=
  have hg := (storage_error_is_500 downDB getAll { store := (), log := [] }
    "dial tcp 127.0.0.1:3306: connect: connection refused").1 rfl
  have hc := (storage_error_is_500 downDB postAlice { store := (), log := [] }
    "dial tcp 127.0.0.1:3306: connect: connection refused").2.2.1 rfl (by decide) rfl
  have hu := (storage_error_is_500 downDB putAge31 { store := (), log := [] }
    "dial tcp 127.0.0.1:3306: connect: connection refused").2.2.2.1 1 rfl (by decide)
    (by decide) rfl
  have hs := (storage_error_is_500 flakyDB getAll { store := (), log := [] }
    "sql: Scan error on column index 1").2.1
    { scans := [Except.ok (1, "Alice", "a@x.com"),
                Except.error "sql: Scan error on column index 1"], err := none }
    [(1, "Alice", "a@x.com")] [] rfl rfl
  have hr := (storage_error_is_500 flakyDB putAge31 { store := (), log := [] }
    "invalid connection").2.2.2.2 1 { LastInsertId := (1, none), RowsAffected := (1, none) }
    rfl (by decide) (by decide) rfl (by decide) rfl
  ⟨hg.1, hg.2.trans rfl, hc.1, hu.1, hs.1, hs.2.trans rfl, hr.1, hr.2.trans rfl⟩

/-! ## updateUser on the table -/

/-- A row after an update that supplies the given form values: a column takes the
supplied value when that value is non-empty and keeps its own otherwise. -/
def patched (name email age : String) (row : Row) : Row :=
  { id := row.id,
    name := if name ≠ "" then name else row.name,
    email := if email ≠ "" then email else row.email,
    age := if age ≠ "" then age else row.age }

theorem parseUpdate_updateQuery (name email age : String)
    (h : ¬ (name = "" ∧ email = "" ∧ age = "")) :
    parseUpdate (updateQuery name email age) = some ((supplied name email age).map Prod.fst) := by
  by_cases hn : name = "" <;> by_cases he : email = "" <;> by_cases ha : age = "" <;>
    simp only [updateQuery, updateQueryRaw, supplied, hn, he, ha, ne_eq,
      not_true_eq_false, not_false_eq_true, if_true, if_false, and_self] at h ⊢ <;>
    rfl

theorem bindArgs_updateParams (id : Int) (name email age : String) :
    bindArgs ((supplied name email age).map Prod.fst) (updateParams id name email age)
      = some (supplied name email age, id) := by
  by_cases hn : name = "" <;> by_cases he : email = "" <;> by_cases ha : age = "" <;>
    simp only [updateParams, supplied, hn, he, ha, ne_eq,
      not_true_eq_false, not_false_eq_true, if_true, if_false] <;>
    rfl

theorem updateQuery_ne_insert (name email age : String) :
    updateQuery name email age ≠ "INSERT INTO users (name, email, age) VALUES (?, ?, ?)" := by
  by_cases hn : name = "" <;> by_cases he : email = "" <;> by_cases ha : age = "" <;>
    simp only [updateQuery, updateQueryRaw, hn, he, ha, ne_eq,
      not_true_eq_false, not_false_eq_true, if_true, if_false] <;>
    decide

theorem assign_supplied (name email age : String) (row : Row) :
    row.assign (supplied name email age) = patched name email age row := by
  by_cases hn : name = "" <;> by_cases he : email = "" <;> by_cases ha : age = "" <;>
    simp [supplied, patched, Row.assign, Row.set, hn, he, ha]

theorem table_exec_update (id : Int) (name email age : String) (t : Table)
    (h : ¬ (name = "" ∧ email = "" ∧ age = "")) :
    Table.Exec (updateQuery name email age) (updateParams id name email age) t =
      (Except.ok { LastInsertId := (0, none),
                   RowsAffected := ((changedRows id (supplied name email age) t.rows : Nat), none) },
       { t with rows := updateRows id (supplied name email age) t.rows }) := by
  simp only [Table.Exec, if_neg (updateQuery_ne_insert name email age),
    parseUpdate_updateQuery name email age h, bindArgs_updateParams]

theorem changedRows_eq_zero_iff (id : Int) (as : List (Column × String)) (rows : List Row) :
    changedRows id as rows = 0 ↔ ∀ row ∈ rows, row.id = id → row.assign as = row := by
  simp [changedRows, List.filter_eq_nil_iff]

theorem updateRows_eq_map_patched (id : Int) (name email age : String) (rows : List Row) :
    updateRows id (supplied name email age) rows =
      rows.map (fun row => if row.id = id then patched name email age row else row) := by
  simp [updateRows, assign_supplied]

theorem updateRows_of_unchanged (id : Int) (as : List (Column × String)) (rows : List Row)
    (h : changedRows id as rows = 0) : updateRows id as rows = rows := by
  rw [changedRows_eq_zero_iff] at h
  unfold updateRows
  conv_rhs => rw [← List.map_id rows]
  apply List.map_congr_left
  intro row hrow
  by_cases hid : row.id = id
  · simp [hid, h row hrow hid]
  · simp [hid]

theorem find_updateRows (id : Int) (name email age : String) (rows : List Row) :
    (updateRows id (supplied name email age) rows).find? (fun row => row.id = id) =
      (rows.find? (fun row => row.id = id)).map (patched name email age) := by
  rw [updateRows_eq_map_patched]
  induction rows with
  | nil => rfl
  | cons row rest ih =>
    by_cases hid : row.id = id
    · simp [List.find?, hid, patched]
    · simp [List.find?, hid, ih]

theorem exists_row_of_changed (id : Int) (as : List (Column × String)) (rows : List Row)
    (h : changedRows id as rows ≠ 0) :
    ∃ old, rows.find? (fun row => row.id = id) = some old := by
  cases hf : rows.find? (fun row => row.id = id) with
  | some old => exact ⟨old, rfl⟩
  | none =>
    exfalso
    apply h
    rw [changedRows_eq_zero_iff]
    intro row hrow hid
    have := List.find?_eq_none.mp hf row hrow
    simp [hid] at this

theorem patched_eq_self_iff (name email age : String) (row : Row) :
    patched name email age row = row ↔
      (name ≠ "" → row.name = name) ∧ (email ≠ "" → row.email = email) ∧
      (age ≠ "" → row.age = age) := by
  obtain ⟨rid, rname, remail, rage⟩ := row
  by_cases hn : name = "" <;> by_cases he : email = "" <;> by_cases ha : age = "" <;>
    simp [patched, hn, he, ha, eq_comm]

theorem updateOutcome_table (r : Request) (t : Table) (log : List Call) (id : Int)
    (hsome : ¬ (r.FormValue "name" = "" ∧ r.FormValue "email" = "" ∧ r.FormValue "age" = "")) :
    updateOutcome tableDB r { store := t, log := log } id =
      Except.ok { LastInsertId := (0, none),
                  RowsAffected := ((changedRows id (supplied (r.FormValue "name")
                    (r.FormValue "email") (r.FormValue "age")) t.rows : Nat), none) } := by
  simp only [updateOutcome, World.Exec, tableDB, table_exec_update id _ _ _ t hsome]

theorem afterUpdate_table (r : Request) (t : Table) (log : List Call) (id : Int)
    (hsome : ¬ (r.FormValue "name" = "" ∧ r.FormValue "email" = "" ∧ r.FormValue "age" = "")) :
    afterUpdate tableDB r { store := t, log := log } id =
      { store := { t with rows := updateRows id (supplied (r.FormValue "name")
                    (r.FormValue "email") (r.FormValue "age")) t.rows },
        log := log ++ [updateCall id (r.FormValue "name") (r.FormValue "email")
                        (r.FormValue "age")] } := by
  simp only [afterUpdate, World.Exec, tableDB, table_exec_update id _ _ _ t hsome, updateCall]

theorem updateUser_table_unchanged (r : Request) (t : Table) (log : List Call) (id : Int)
    (hparse : r.parseErr = none) (hid : Atoi (r.FormValue "id") = some id)
    (hsome : ¬ (r.FormValue "name" = "" ∧ r.FormValue "email" = "" ∧ r.FormValue "age" = ""))
    (hz : changedRows id (supplied (r.FormValue "name") (r.FormValue "email")
      (r.FormValue "age")) t.rows = 0) :
    updateUser tableDB r { store := t, log := log } =
      (httpError ResponseWriter.fresh "User not found or no changes made" StatusNotFound,
       { store := t,
         log := log ++ [updateCall id (r.FormValue "name") (r.FormValue "email")
                         (r.FormValue "age")] }) := by
  rw [updateUser_zero_rows tableDB r _ id _ hparse hid hsome
    (updateOutcome_table r t log id hsome) (by simp [hz]),
    afterUpdate_table r t log id hsome, updateRows_of_unchanged id _ t.rows hz]

theorem updateUser_table_changed (r : Request) (t : Table) (log : List Call) (id : Int)
    (old : Row) (hparse : r.parseErr = none) (hid : Atoi (r.FormValue "id") = some id)
    (hsome : ¬ (r.FormValue "name" = "" ∧ r.FormValue "email" = "" ∧ r.FormValue "age" = ""))
    (hc : changedRows id (supplied (r.FormValue "name") (r.FormValue "email")
      (r.FormValue "age")) t.rows ≠ 0)
    (hold : t.rows.find? (fun row => row.id = id) = some old) :
    updateUser tableDB r { store := t, log := log } =
      (encode (ResponseWriter.fresh.SetContentType "application/json")
        (User.toJson
          { ID := old.id,
            Name := (patched (r.FormValue "name") (r.FormValue "email") (r.FormValue "age")
              old).name,
            Email := (patched (r.FormValue "name") (r.FormValue "email") (r.FormValue "age")
              old).email,
            Age := (patched (r.FormValue "name") (r.FormValue "email") (r.FormValue "age")
              old).age }),
       { store := { t with rows := updateRows id (supplied (r.FormValue "name")
                    (r.FormValue "email") (r.FormValue "age")) t.rows },
         log := log ++ [updateCall id (r.FormValue "name") (r.FormValue "email")
                         (r.FormValue "age"), rereadCall id] }) := by
  have hq : rereadOutcome tableDB r { store := t, log := log } id =
      Except.ok (old.id,
        (patched (r.FormValue "name") (r.FormValue "email") (r.FormValue "age") old).name,
        (patched (r.FormValue "name") (r.FormValue "email") (r.FormValue "age") old).email,
        (patched (r.FormValue "name") (r.FormValue "email") (r.FormValue "age") old).age) := by
    unfold rereadOutcome
    rw [afterUpdate_table r t log id hsome]
    simp only [World.QueryRow, tableDB, Table.QueryRow, ↓reduceIte, find_updateRows, hold,
      Option.map_some']
    rfl
  rw [updateUser_ok tableDB r _ id _ _ hparse hid hsome
    (updateOutcome_table r t log id hsome) (by simpa using hc) hq]
  unfold afterReread
  rw [afterUpdate_table r t log id hsome]
  simp only [World.QueryRow, tableDB, Table.QueryRow, ↓reduceIte, find_updateRows, hold,
    Option.map_some', rereadCall, List.append_assoc, List.singleton_append]

/-! ## updateUser: not found, frame, success -/

/-- C4: for an update request that passes validation and whose UPDATE statement executes
without error, the answer is status 404 exactly when the result reports zero affected
rows, and then the only call made is the UPDATE statement (no re-read).  On the table the
answer is 404 exactly when every row with the id already has every supplied value, in
particular when no row has the id; in the 404 case the stored table is unchanged. -/
theorem updateUser_not_found (db : SqlDB σ) (r : Request) (s : World σ) (result : Result)
    (t : Table) (log : List Call) (id : Int)
    (hparse : r.parseErr = none) (hid : Atoi (r.FormValue "id") = some id)
    (hsome : ¬ (r.FormValue "name" = "" ∧ r.FormValue "email" = "" ∧ r.FormValue "age" = ""))
    (hx : updateOutcome db r s id = Except.ok result) :
    ((updateUser db r s).1.status = 404 ↔ result.RowsAffected.1 = 0) ∧
    (result.RowsAffected.1 = 0 →
      (updateUser db r s).2.log =
        s.log ++ [updateCall id (r.FormValue "name") (r.FormValue "email") (r.FormValue "age")]) ∧
    ((updateUser tableDB r { store := t, log := log }).1.status = 404 ↔
      ∀ row ∈ t.rows, row.id = id →
        (r.FormValue "name" ≠ "" → row.name = r.FormValue "name") ∧
        (r.FormValue "email" ≠ "" → row.email = r.FormValue "email") ∧
        (r.FormValue "age" ≠ "" → row.age = r.FormValue "age")) ∧
    ((∀ row ∈ t.rows, row.id ≠ id) →
      (updateUser tableDB r { store := t, log := log }).1.status = 404) ∧
    ((updateUser tableDB r { store := t, log := log }).1.status = 404 →
      (updateUser tableDB r { store := t, log := log }).2.store = t ∧
      (updateUser tableDB r { store := t, log := log }).2.log =
        log ++ [updateCall id (r.FormValue "name") (r.FormValue "email") (r.FormValue "age")]) := by
  have htable : (updateUser tableDB r { store := t, log := log }).1.status = 404 ↔
      changedRows id (supplied (r.FormValue "name") (r.FormValue "email") (r.FormValue "age"))
        t.rows = 0 := by
    by_cases hz : changedRows id (supplied (r.FormValue "name") (r.FormValue "email")
        (r.FormValue "age")) t.rows = 0
    · rw [updateUser_table_unchanged r t log id hparse hid hsome hz]
      simp [hz]
    · obtain ⟨old, hold⟩ := exists_row_of_changed id _ t.rows hz
      rw [updateUser_table_changed r t log id old hparse hid hsome hz hold]
      simp [hz]
  have hrows : changedRows id (supplied (r.FormValue "name") (r.FormValue "email")
        (r.FormValue "age")) t.rows = 0 ↔
      ∀ row ∈ t.rows, row.id = id →
        (r.FormValue "name" ≠ "" → row.name = r.FormValue "name") ∧
        (r.FormValue "email" ≠ "" → row.email = r.FormValue "email") ∧
        (r.FormValue "age" ≠ "" → row.age = r.FormValue "age") := by
    rw [changedRows_eq_zero_iff]
    constructor
    · intro h row hrow hrid
      have := h row hrow hrid
      rw [assign_supplied] at this
      exact (patched_eq_self_iff _ _ _ row).mp this
    · intro h row hrow hrid
      rw [assign_supplied]
      exact (patched_eq_self_iff _ _ _ row).mpr (h row hrow hrid)
  refine ⟨?_, ?_, htable.trans hrows, ?_, ?_⟩
  · by_cases hzero : result.RowsAffected.1 = 0
    · rw [updateUser_zero_rows db r s id result hparse hid hsome hx hzero]
      simp [hzero]
    · cases hq : rereadOutcome db r s id with
      | error err =>
        rw [updateUser_reread_error db r s id result err hparse hid hsome hx hzero hq]
        simp [hzero]
      | ok u =>
        rw [updateUser_ok db r s id result u hparse hid hsome hx hzero hq]
        simp [hzero]
  · intro hzero
    rw [updateUser_zero_rows db r s id result hparse hid hsome hx hzero]
    rfl
  · intro hnone
    apply (htable.trans hrows).mpr
    intro row hrow hrid
    exact absurd hrid (hnone row hrow)
  · intro h404
    have hz := htable.mp h404
    rw [updateUser_table_unchanged r t log id hparse hid hsome hz]
    exact ⟨rfl, rfl⟩

/-- C4 at a concrete input: the table holds Alice under id 1; the request names id 999999. -/
theorem updateUser_not_found_witness :
    Atoi "999999" = some 999999 ∧
    (updateUser tableDB { parseErr := none, Form := [("id", ["999999"]), ("name", ["Bob"])] }
      { store := { rows := [⟨1, "Alice", "a@x.com", "30"⟩], nextId := 2 }, log := [] }).1.status
      = 404 ∧
    (updateUser tableDB { parseErr := none, Form := [("id", ["999999"]), ("name", ["Bob"])] }
      { store := { rows := [⟨1, "Alice", "a@x.com", "30"⟩], nextId := 2 }, log := [] }).2.store
      = { rows := [⟨1, "Alice", "a@x.com", "30"⟩], nextId := 2 } :=
  have h := updateUser_not_found tableDB
    { parseErr := none, Form := [("id", ["999999"]), ("name", ["Bob"])] }
    { store := { rows := [⟨1, "Alice", "a@x.com", "30"⟩], nextId := 2 }, log := [] }
    { LastInsertId := (0, none), RowsAffected := (0, none) }
    { rows := [⟨1, "Alice", "a@x.com", "30"⟩], nextId := 2 } [] 999999
    rfl (by decide) (by decide) rfl
  ⟨by decide, h.1.mpr rfl, (h.2.2.2.2 (h.1.mpr rfl)).1⟩

/-- C5: on every stored table, after an update request that passes validation, each row
with the requested id has, in each of the columns name, email, age, the supplied value
when that value is non-empty and its old value otherwise, its id is unchanged, every
row with another id is unchanged, and no row is added or removed.  In particular a
request that supplies only email changes the email of the rows with that id and nothing
else. -/
theorem updateUser_only_supplied_columns (r : Request) (t : Table) (log : List Call) (id : Int)
    (hparse : r.parseErr = none) (hid : Atoi (r.FormValue "id") = some id)
    (hsome : ¬ (r.FormValue "name" = "" ∧ r.FormValue "email" = "" ∧ r.FormValue "age" = "")) :
    (updateUser tableDB r { store := t, log := log }).2.store.rows =
      t.rows.map (fun row => if row.id = id then
        { id := row.id,
          name := if r.FormValue "name" ≠ "" then r.FormValue "name" else row.name,
          email := if r.FormValue "email" ≠ "" then r.FormValue "email" else row.email,
          age := if r.FormValue "age" ≠ "" then r.FormValue "age" else row.age }
        else row) ∧
    (updateUser tableDB r { store := t, log := log }).2.store.nextId = t.nextId ∧
    (r.FormValue "name" = "" → r.FormValue "age" = "" →
      (updateUser tableDB r { store := t, log := log }).2.store.rows =
        t.rows.map (fun row => if row.id = id then
          { id := row.id, name := row.name, email := r.FormValue "email", age := row.age }
          else row)) := by
  have hstore : (updateUser tableDB r { store := t, log := log }).2.store =
      { t with rows := updateRows id (supplied (r.FormValue "name") (r.FormValue "email")
          (r.FormValue "age")) t.rows } := by
    by_cases hz : changedRows id (supplied (r.FormValue "name") (r.FormValue "email")
        (r.FormValue "age")) t.rows = 0
    · rw [updateUser_table_unchanged r t log id hparse hid hsome hz,
        updateRows_of_unchanged id _ t.rows hz]
    · obtain ⟨old, hold⟩ := exists_row_of_changed id _ t.rows hz
      rw [updateUser_table_changed r t log id old hparse hid hsome hz hold]
  have hrows := congrArg Table.rows hstore
  simp only [updateRows_eq_map_patched, patched] at hrows
  refine ⟨hrows, by rw [hstore], ?_⟩
  intro hn ha
  have he : r.FormValue "email" ≠ "" := fun he => hsome ⟨hn, he, ha⟩
  rw [hrows]
  simp [hn, ha, he]

/-- C5 at a concrete input: a table of two rows, a request that supplies only an email for
id 2. -/
theorem updateUser_only_supplied_columns_witness :
    Atoi "2" = some 2 ∧
    (updateUser tableDB { parseErr := none, Form := [("id", ["2"]), ("email", ["bob@y.org"])] }
      { store := { rows := [⟨1, "Alice", "a@x.com", "30"⟩, ⟨2, "Bob", "b@x.com", "40"⟩],
                   nextId := 3 }, log := [] }).2.store.rows
      = [⟨1, "Alice", "a@x.com", "30"⟩, ⟨2, "Bob", "bob@y.org", "40"⟩] :=
  have h := updateUser_only_supplied_columns
    { parseErr := none, Form := [("id", ["2"]), ("email", ["bob@y.org"])] }
    { rows := [⟨1, "Alice", "a@x.com", "30"⟩, ⟨2, "Bob", "b@x.com", "40"⟩], nextId := 3 } [] 2
    rfl (by decide) (by decide)
  ⟨by decide, (h.2.2 rfl rfl).trans (by decide)⟩

/-- C6: for an update request that passes validation, affects at least one row and whose
re-read succeeds, the answer is status 200, content type application/json, and the `User`
the re-read delivered.  On the table, an answer other than 404 is such an answer: its id
is the requested id, each supplied field has the supplied value, each other field the
value the row had before, and it is the row stored under that id after the update.  In
the end-to-end scenario the answer to the update is the object with id 1, name "Alice",
email "a@x.com" and age "31". -/
theorem updateUser_success (db : SqlDB σ) (r : Request) (s : World σ) (result : Result)
    (u : Int × String × String × String) (t : Table) (log : List Call) (id : Int)
    (hparse : r.parseErr = none) (hid : Atoi (r.FormValue "id") = some id)
    (hsome : ¬ (r.FormValue "name" = "" ∧ r.FormValue "email" = "" ∧ r.FormValue "age" = ""))
    (hx : updateOutcome db r s id = Except.ok result) (hrows : result.RowsAffected.1 ≠ 0)
    (hq : rereadOutcome db r s id = Except.ok u) :
    (updateUser db r s).1.status = 200 ∧
    (updateUser db r s).1.contentType = some "application/json" ∧
    (updateUser db r s).1.body =
      [Chunk.json (Json.obj [("id", Json.num u.1), ("name", Json.str u.2.1),
        ("email", Json.str u.2.2.1), ("age", Json.str u.2.2.2)])] ∧
    ((updateUser tableDB r { store := t, log := log }).1.status ≠ 404 →
      ∃ old, t.rows.find? (fun row => row.id = id) = some old ∧
        (updateUser tableDB r { store := t, log := log }).1.status = 200 ∧
        (updateUser tableDB r { store := t, log := log }).1.contentType
          = some "application/json" ∧
        (updateUser tableDB r { store := t, log := log }).1.body =
          [Chunk.json (Json.obj [("id", Json.num id),
            ("name", Json.str (if r.FormValue "name" ≠ "" then r.FormValue "name"
              else old.name)),
            ("email", Json.str (if r.FormValue "email" ≠ "" then r.FormValue "email"
              else old.email)),
            ("age", Json.str (if r.FormValue "age" ≠ "" then r.FormValue "age"
              else old.age))])] ∧
        (updateUser tableDB r { store := t, log := log }).2.store.rows.find?
            (fun row => row.id = id) =
          some { id := id,
                 name := if r.FormValue "name" ≠ "" then r.FormValue "name" else old.name,
                 email := if r.FormValue "email" ≠ "" then r.FormValue "email" else old.email,
                 age := if r.FormValue "age" ≠ "" then r.FormValue "age" else old.age }) ∧
    (updateUser tableDB putAge31
        (createUser tableDB postAlice { store := emptyTable, log := [] }).2).1.status = 200 ∧
    (updateUser tableDB putAge31
        (createUser tableDB postAlice { store := emptyTable, log := [] }).2).1.body =
      [Chunk.json (Json.obj [("id", Json.num 1), ("name", Json.str "Alice"),
        ("email", Json.str "a@x.com"), ("age", Json.str "31")])] := by
  refine ⟨?_, ?_, ?_, ?_, by rfl, by rfl⟩
  · rw [updateUser_ok db r s id result u hparse hid hsome hx hrows hq]; rfl
  · rw [updateUser_ok db r s id result u hparse hid hsome hx hrows hq]; rfl
  · rw [updateUser_ok db r s id result u hparse hid hsome hx hrows hq]; rfl
  · intro hne
    by_cases hz : changedRows id (supplied (r.FormValue "name") (r.FormValue "email")
        (r.FormValue "age")) t.rows = 0
    · rw [updateUser_table_unchanged r t log id hparse hid hsome hz] at hne
      exact absurd rfl hne
    · obtain ⟨old, hold⟩ := exists_row_of_changed id _ t.rows hz
      have hoid : old.id = id := by
        have := List.find?_some hold
        simpa using this
      refine ⟨old, hold, ?_⟩
      rw [updateUser_table_changed r t log id old hparse hid hsome hz hold]
      refine ⟨rfl, rfl, ?_, ?_⟩
      · simp [User.toJson, patched, hoid]
      · simp only [find_updateRows, hold, Option.map_some', patched, hoid]

/-- C6 at a concrete input: the update request of the end-to-end scenario, sent after the
create request on the empty table of a new database. -/
theorem updateUser_success_witness :
    Atoi (putAge31.FormValue "id") = some 1 ∧
    (updateUser tableDB putAge31
        (createUser tableDB postAlice { store := emptyTable, log := [] }).2).1.status = 200 ∧
    (updateUser tableDB putAge31
        (createUser tableDB postAlice { store := emptyTable, log := [] }).2).1.body =
      [Chunk.json (Json.obj [("id", Json.num 1), ("name", Json.str "Alice"),
        ("email", Json.str "a@x.com"), ("age", Json.str "31")])] :=
  have h := updateUser_success tableDB putAge31
    (createUser tableDB postAlice { store := emptyTable, log := [] }).2
    { LastInsertId := (0, none), RowsAffected := (1, none) }
    (1, "Alice", "a@x.com", "31") emptyTable [] 1
    rfl (by decide) (by decide) rfl (by decide) rfl
  ⟨by decide, h.1, h.2.2.1⟩

end Crud
